import Mathlib

/-!
Verification development for the gmail-summarizer repository.

The Python source under verification consists of `app.py` (Flask routes and
per-message orchestration), `src/llm_service.py` (LLM gateway, response
parsing/repair, heuristic fallbacks) and `src/gmail_client.py` (mailbox I/O,
out of scope here).  The definitions below are a shallow embedding of the
analysis pipeline: pure Python string code is translated to Lean functions on
`String` / `List Char`; the external Ollama chat call and the Python `json`
library are modelled as explicit oracles (a list of call outcomes, and a
`String -> Option Analysis` decoding function), since their bodies live
outside the repository.  ASCII semantics are assumed for `lower()` and `\d`
(all keyword/regex constants in the source are ASCII).
-/

namespace GmailSummarizer

/-- The character `{` (written via its code point to keep string/char literals
free of brace glyphs). -/
def lbrace : Char := Char.ofNat 123

/-- The character `}`. -/
def rbrace : Char := Char.ofNat 125

/-- ASCII lowercase of one character (table form so that kernel reduction,
and hence `decide`, works on it). -/
def charLower : Char → Char
  | 'A' => 'a'
  | 'B' => 'b'
  | 'C' => 'c'
  | 'D' => 'd'
  | 'E' => 'e'
  | 'F' => 'f'
  | 'G' => 'g'
  | 'H' => 'h'
  | 'I' => 'i'
  | 'J' => 'j'
  | 'K' => 'k'
  | 'L' => 'l'
  | 'M' => 'm'
  | 'N' => 'n'
  | 'O' => 'o'
  | 'P' => 'p'
  | 'Q' => 'q'
  | 'R' => 'r'
  | 'S' => 's'
  | 'T' => 't'
  | 'U' => 'u'
  | 'V' => 'v'
  | 'W' => 'w'
  | 'X' => 'x'
  | 'Y' => 'y'
  | 'Z' => 'z'
  | c => c

/-- Python `str.lower()`, restricted to ASCII (all source keywords are ASCII). -/
def pyLower (s : String) : String := String.mk (s.data.map charLower)

/-- Python `str.split(sep)` for a one-character separator (the source only
splits on `'.'` and `'|'`). -/
def pySplit (sep : Char) : List Char → List (List Char)
  | [] => [[]]
  | c :: t =>
    if c = sep then [] :: pySplit sep t
    else
      match pySplit sep t with
      | h :: r => (c :: h) :: r
      | [] => [[c]]

/-- Python `sep.join(parts)`. -/
def pyJoin (sep : List Char) : List (List Char) → List Char
  | [] => []
  | [x] => x
  | x :: r => x ++ sep ++ pyJoin sep r

/-- Python whitespace class `\s` (ASCII part): space, tab, newline, carriage
return, vertical tab, form feed. -/
def pyWs (c : Char) : Bool :=
  c = ' ' || c = '\t' || c = '\n' || c = '\r' || c = '\x0b' || c = '\x0c'

/-- Drop leading Python whitespace. -/
def trimFront (cs : List Char) : List Char := cs.dropWhile pyWs

/-- Drop trailing Python whitespace. -/
def trimBack (cs : List Char) : List Char := (cs.reverse.dropWhile pyWs).reverse

/-- Python `str.strip()` on a character list. -/
def pyStrip (cs : List Char) : List Char := trimBack (trimFront cs)

/-- Python `str.strip()` on a `String`. -/
def pyStripStr (s : String) : String := String.mk (pyStrip s.data)

/-- Contiguous-sublist test on character lists. -/
def isInfixB (needle : List Char) : List Char → Bool
  | [] => needle.isEmpty
  | c :: t => needle.isPrefixOf (c :: t) || isInfixB needle t

/-- Python substring test `kw in text` (contiguous substring). -/
def containsSub (text kw : String) : Bool := isInfixB kw.data text.data

/-- `any(keyword in text for keyword in kws)`. -/
def anyKw (kws : List String) (text : String) : Bool :=
  kws.any (fun k => containsSub text k)

/-- The lowered haystack `(subject + " " + content).lower()` built at the top
of the heuristic helpers in `llm_service.py`. -/
def textOf (subject content : String) : String :=
  pyLower (subject ++ " " ++ content)

/-- `important_keywords` from `LLMService._simple_categorize_fallback`
(`llm_service.py` lines 385-392). -/
def importantKeywords : List String :=
  ["booking confirmation", "flight confirmation", "reservation confirmed",
   "ticket", "itinerary", "travel", "hotel booking", "car rental",
   "meeting", "appointment", "conference", "call",
   "invoice", "bill", "payment", "receipt",
   "project", "assignment", "course", "materials",
   "document", "report", "proposal", "visa", "passport"]

/-- `very_urgent_keywords` (`llm_service.py` lines 395-401). -/
def veryUrgentKeywords : List String :=
  ["urgent", "asap", "emergency", "critical", "immediate",
   "today", "tonight", "this morning", "this afternoon",
   "deadline today", "due today", "expires today",
   "server down", "system failure", "security alert",
   "action required immediately"]

/-- `spam_keywords` (`llm_service.py` lines 404-416). -/
def spamKeywords : List String :=
  ["sale", "discount", "offer", "deal", "promotion", "promo",
   "buy now", "shop now", "limited time offer", "exclusive deal",
   "free shipping", "save money", "best price",
   "play", "gear", "equipment", "new products", "collection",
   "new arrivals", "trending", "popular", "bestseller",
   "congratulations", "winner", "prize", "lottery",
   "click here now", "act now", "urgent offer",
   "verify account", "suspended account", "inheritance"]

/-- The marketing-sender words checked at `llm_service.py` line 442. -/
def senderSpamWords : List String :=
  ["marketing@", "noreply@", "no-reply@", "promo@"]

/-- `unimportant_keywords` (`llm_service.py` lines 419-424). -/
def unimportantKeywords : List String :=
  ["newsletter", "blog", "news", "update", "digest",
   "notification", "reminder", "summary",
   "linkedin", "facebook", "twitter", "social",
   "backup completed", "maintenance"]

/-- The four levels of the closed importance taxonomy (spec section 3). -/
def importanceLevels : List String :=
  ["VERY_IMPORTANT", "IMPORTANT", "UNIMPORTANT", "SPAM"]

/-- `LLMService._simple_categorize_fallback` (`llm_service.py` lines 379-453):
keyword cascade over the lowered `subject + " " + content` text, returning a
one-element category list. -/
def simpleCategorizeFallback (subject content : String) : List String :=
  let text := textOf subject content
  if anyKw importantKeywords text then ["IMPORTANT"]
  else if anyKw veryUrgentKeywords text then ["VERY_IMPORTANT"]
  else if anyKw spamKeywords text then ["SPAM"]
  else if anyKw senderSpamWords text then ["SPAM"]
  else if anyKw unimportantKeywords text then ["UNIMPORTANT"]
  else ["UNIMPORTANT"]

/-- `LLMService._simple_importance_fallback` (`llm_service.py` lines 469-472):
`categories[0] if categories else 'IMPORTANT'`. -/
def simpleImportanceFallback (subject content : String) : String :=
  (simpleCategorizeFallback subject content).headD "IMPORTANT"

/-- `LLMService._simple_summarize_fallback` (`llm_service.py` lines 455-467). -/
def simpleSummarizeFallback (content : String) : String :=
  if content = "" then "No content available"
  else
    let sentences := (pySplit '.' content.data).take 3
    let summary := pyStrip (pyJoin ". ".data sentences)
    let summary := if summary.length > 200 then summary.take 200 ++ "...".data else summary
    if summary = [] then "Unable to generate summary" else String.mk summary

/-- `importance.split('|')` as level strings (helper for the pipe-collapse
step below). -/
def pipeLevels (imp : String) : List String := (pySplit '|' imp.data).map String.mk

/-- The pipe-collapse step of `analyze_email_comprehensive`
(`llm_service.py` lines 231-242): if the decoded `importance_level` contains
`|`, split it and keep the first level in the priority order
VERY_IMPORTANT, IMPORTANT, UNIMPORTANT, else SPAM. -/
def fixImportance (imp : String) : String :=
  if imp.data.contains '|' then
    let levels := pipeLevels imp
    if levels.contains "VERY_IMPORTANT" then "VERY_IMPORTANT"
    else if levels.contains "IMPORTANT" then "IMPORTANT"
    else if levels.contains "UNIMPORTANT" then "UNIMPORTANT"
    else "SPAM"
  else imp

/-- Severity rank realising the spec section 3 total order
VERY_IMPORTANT > IMPORTANT > UNIMPORTANT > SPAM. -/
def sevRank (l : String) : Nat :=
  if l = "VERY_IMPORTANT" then 3
  else if l = "IMPORTANT" then 2
  else if l = "UNIMPORTANT" then 1
  else 0

/-- Spec-side rendering of section 4.5's classification contract: evaluate the
keyword sets in the fixed priority order business -> urgency -> promotional
(including marketing-sender words) -> informational; first matching set wins;
default UNIMPORTANT.  Written from the spec's words, to be compared with
`simpleCategorizeFallback` (the source translation). -/
def priorityClassifySpec (subject content : String) : String :=
  let text := textOf subject content
  let checks : List (Bool × String) :=
    [(anyKw importantKeywords text, "IMPORTANT"),
     (anyKw veryUrgentKeywords text, "VERY_IMPORTANT"),
     (anyKw spamKeywords text || anyKw senderSpamWords text, "SPAM"),
     (anyKw unimportantKeywords text, "UNIMPORTANT")]
  ((checks.find? (fun p => p.1)).map (fun p => p.2)).getD "UNIMPORTANT"

/-! ## Response parser and repair (`analyze_email_comprehensive`, lines 197-272) -/

/-- Python `str.replace('\\' + e, r)` for the two repair passes
`replace('\\_', '_')` and `replace('\\n', ' ')`: left-to-right,
non-overlapping replacement of the two-character sequence backslash-`e`
by the single character `r`. -/
def replaceEscape (e r : Char) : List Char → List Char
  | [] => []
  | [c] => [c]
  | c :: d :: t =>
    if c = '\\' && d = e then r :: replaceEscape e r t
    else c :: replaceEscape e r (d :: t)

/-- Python `str.replace(a, b)` for a one-character pattern
(`json_str.replace('\n', ' ')`). -/
def replaceChar (a b : Char) (cs : List Char) : List Char :=
  cs.map (fun c => if c = a then b else c)

/-- Helper for `collapseWs`: `prevWs` records whether the previous character
belonged to a whitespace run already emitted as one space. -/
def collapseWsAux (prevWs : Bool) : List Char → List Char
  | [] => []
  | c :: t =>
    if pyWs c then
      if prevWs then collapseWsAux true t else ' ' :: collapseWsAux true t
    else c :: collapseWsAux false t

/-- Python `re.sub(r'\s+', ' ', s)`: collapse every maximal whitespace run to
a single space. -/
def collapseWs (cs : List Char) : List Char := collapseWsAux false cs

/-- The slice `cleaned[find(lbrace) : rfind(rbrace) + 1]`: drop everything
before the first `{` and everything after the last `}` (empty when the last
`}` precedes the first `{`, as the Python slice then is). -/
def sliceBraces (cs : List Char) : List Char :=
  ((cs.dropWhile (fun c => c != lbrace)).reverse.dropWhile (fun c => c != rbrace)).reverse

/-- `result.strip()` followed by the two escape-repair passes
(`llm_service.py` lines 200-204). -/
def cleanedChars (result : String) : List Char :=
  replaceEscape 'n' ' ' (replaceEscape '_' '_' (pyStrip result.data))

/-- The string handed to `json.loads`: the brace-to-brace slice with real
newlines replaced by spaces and whitespace runs normalized
(`llm_service.py` lines 206-216). -/
def jsonCandidate (result : String) : String :=
  String.mk (collapseWs (replaceChar '\n' ' ' (sliceBraces (cleanedChars result))))

/-- The decoded JSON object, restricted to the fields the source reads.
A missing key is `none` / `[]`; `json.loads` itself is external library code
and is modelled as a `String → Option Analysis` oracle argument. -/
structure Analysis where
  importanceLevel : Option String
  summary : Option String
  deadlines : List String
  hasDeadline : Option Bool
  reasoning : Option String
  importantLinks : List String
  attachmentsMentioned : List String
deriving DecidableEq

/-- The minimal dict synthesized by the manual-extraction fallback
(`llm_service.py` lines 263-271). -/
def mkMinimalAnalysis (imp : String) : Analysis :=
  { importanceLevel := some imp
    summary := some "Failed to parse full analysis"
    deadlines := []
    hasDeadline := some false
    reasoning := some "JSON parsing failed"
    importantLinks := []
    attachmentsMentioned := [] }

/-- The literal part of the manual-extraction regex
`r'"importance_level":\s*"([^"]+)"'`. -/
def impLit : List Char := '"' :: ("importance_level".data ++ ['"', ':'])

/-- One anchored attempt of the manual-extraction regex at the head of `cs`:
the literal `"importance_level":`, then `\s*`, then a quoted non-empty run of
non-quote characters (the capture). -/
def matchImpAt (cs : List Char) : Option (List Char) :=
  if impLit.isPrefixOf cs then
    match (cs.drop impLit.length).dropWhile pyWs with
    | '"' :: r2 =>
      let cap := r2.takeWhile (fun c => c != '"')
      match r2.drop cap.length with
      | '"' :: _ => if cap.isEmpty then none else some cap
      | _ => none
    | _ => none
  else none

/-- `re.search(r'"importance_level":\s*"([^"]+)"', result)`: first matching
position, scanning left to right. -/
def searchImportance : List Char → Option (List Char)
  | [] => none
  | c :: t =>
    match matchImpAt (c :: t) with
    | some cap => some cap
    | none => searchImportance t

/-- The response-parsing stage of `analyze_email_comprehensive`
(`llm_service.py` lines 197-272), for a non-empty raw response `result`:
strip and repair escapes; if both braces occur, decode the brace slice
(after newline/whitespace normalization); on decode success require the
`importance_level` key and collapse compound values; on decode failure run
the manual-extraction regex over the ORIGINAL raw text and synthesize a
minimal result; if no braces are found, fail without manual extraction. -/
def parseResponse (jsonLoads : String → Option Analysis) (result : String) :
    Option Analysis :=
  let cs := cleanedChars result
  if cs.contains lbrace && cs.contains rbrace then
    match jsonLoads (jsonCandidate result) with
    | some analysis =>
      match analysis.importanceLevel with
      | none => none
      | some imp => some { analysis with importanceLevel := some (fixImportance imp) }
    | none =>
      match searchImportance result.data with
      | some cap => some (mkMinimalAnalysis (String.mk cap))
      | none => none
  else none

/-! ## Model gateway (`LLMService._call_ollama`, lines 52-93) -/

/-- Environment behaviour of one `self.client.chat` invocation: an exception
(timeout / connection error), a structurally malformed or empty response
(missing `message`/`content`), or a successful response with content. -/
inductive CallOutcome
  | exn
  | malformed
  | ok (content : String)
deriving DecidableEq

/-- Observable outcome of `_call_ollama`: returned value, number of chat
attempts made, and number of 2-second inter-retry sleeps taken. -/
structure CallResult where
  result : Option String
  attempts : Nat
  sleeps : Nat
deriving DecidableEq

/-- The `for attempt in range(max_retries)` loop of `_call_ollama`
(lines 57-93), with `remaining` the number of loop iterations still allowed
(initially `max_retries`; `remaining = 1` means this is the last attempt,
i.e. `attempt = max_retries - 1`).  A well-formed response returns its
stripped content; a malformed/empty response returns `None` immediately (no
retry); an exception sleeps 2s and retries unless this was the last
attempt. -/
def callAttempts (outcomes : Nat → CallOutcome) : Nat → Nat → Nat → CallResult
  | 0, attempt, sleeps => ⟨none, attempt, sleeps⟩
  | remaining + 1, attempt, sleeps =>
    match outcomes attempt with
    | .ok c => ⟨some (pyStripStr c), attempt + 1, sleeps⟩
    | .malformed => ⟨none, attempt + 1, sleeps⟩
    | .exn =>
      if remaining = 0 then ⟨none, attempt + 1, sleeps⟩
      else callAttempts outcomes remaining (attempt + 1) (sleeps + 1)

/-- The gateway state set by `LLMService.__init__`: the availability flag and
the environment's per-attempt chat outcomes (an oracle, since the provider is
external).  `__init__` assigns exactly `client`, `model_name` and
`is_available`; in particular no `api_key` attribute is ever created. -/
structure LLMServiceM where
  is_available : Bool
  outcomes : Nat → CallOutcome

/-- `LLMService._call_ollama(prompt, max_retries)`: `None` when the service
is unavailable, otherwise the retry loop.  The function never raises: every
chat exception is caught inside the loop. -/
def callOllama (svc : LLMServiceM) (prompt : String) (maxRetries : Nat) : CallResult :=
  if svc.is_available then callAttempts svc.outcomes maxRetries 0 0
  else ⟨none, 0, 0⟩

/-- `LLMService._clean_email_content`: CSS/HTML-stripping regex passes.  The
cleaned text flows only into the prompt text, which the external model
(modelled as the outcome oracle) consumes; the regex passes are therefore
not re-implemented and the transform is modelled as the identity. -/
def cleanEmailContent (content : String) : String := content

/-- The prompt f-string of `analyze_email_comprehensive` (lines 110-193).
The fixed instruction text is elided (it is consumed only by the external
model, modelled as the outcome oracle); the structure subject-then-content
is kept. -/
def buildPrompt (subject content metadataInfo : String) : String :=
  "EMAIL TO ANALYZE: Subject: " ++ subject ++ " Content: " ++ content ++ metadataInfo

/-- `LLMService.analyze_email_comprehensive(subject, content)` (no metadata,
as called from `app.py`): clean, build the prompt, call the gateway with the
default `max_retries=3`; on a falsy (absent or empty) response return `None`,
else parse. -/
def analyzeEmailComprehensive (jsonLoads : String → Option Analysis)
    (svc : LLMServiceM) (subject content : String) : Option Analysis :=
  let prompt := buildPrompt subject (cleanEmailContent content) ""
  match (callOllama svc prompt 3).result with
  | none => none
  | some r => if r = "" then none else parseResponse jsonLoads r

/-! ## Fallback deadline extraction (`_extract_deadlines_regex`, lines 358-377)

The six patterns all share the one date shape
`\d{1,2}[/ or -]\d{1,2}[/ or -]\d{2,4}` next to a context literal with a lazy
`.*?` gap (which cannot cross a newline, since `re.DOTALL` is not set).
The matcher below implements exactly these patterns with Python's
backtracking order: starting positions left to right, lazy gap minimal,
digit quantifiers greedy; `findall` resumes after the end of each match. -/

/-- `\d{1,2}[/ or -]\d{1,2}[/ or -]\d{2,4}` candidate component lengths
`(a, b, c)` in the engine's greedy backtracking order. -/
def dateCombos : List (Nat × Nat × Nat) :=
  [(2, 2, 4), (2, 2, 3), (2, 2, 2), (2, 1, 4), (2, 1, 3), (2, 1, 2),
   (1, 2, 4), (1, 2, 3), (1, 2, 2), (1, 1, 4), (1, 1, 3), (1, 1, 2)]

/-- Date separator class `[/ or -]`. -/
def isSepCh : Option Char → Bool
  | some c => c = '/' || c = '-'
  | none => false

/-- Does `\d{a}[/ or -]\d{b}[/ or -]\d{c}` match at the head of `cs`? -/
def checkDate (a b c : Nat) (cs : List Char) : Bool :=
  decide (a + b + c + 2 ≤ cs.length)
  && (cs.take a).all Char.isDigit
  && isSepCh cs[a]?
  && ((cs.drop (a + 1)).take b).all Char.isDigit
  && isSepCh cs[a + 1 + b]?
  && ((cs.drop (a + b + 2)).take c).all Char.isDigit

/-- Length of the date match at the head of `cs`, if any, using the greedy
backtracking order of `dateCombos`. -/
def matchDateLen (cs : List Char) : Option Nat :=
  (dateCombos.find? (fun t => checkDate t.1 t.2.1 t.2.2 cs)).map
    (fun t => t.1 + t.2.1 + t.2.2 + 2)

/-- Earliest date match in `cs` reachable through a lazy `.*?` gap (which
cannot cross a newline): returns the matched date and the rest after it. -/
def findFirstDate : List Char → Option (List Char × List Char)
  | [] => none
  | c :: t =>
    match matchDateLen (c :: t) with
    | some n => some ((c :: t).take n, (c :: t).drop n)
    | none => if c = '\n' then none else findFirstDate t

/-- Earliest occurrence of the literal `lit` in `cs` reachable through a lazy
`.*?` gap: returns the rest after the literal. -/
def findFirstLit (lit : List Char) : List Char → Option (List Char)
  | [] => none
  | c :: t =>
    if lit.isPrefixOf (c :: t) then some ((c :: t).drop lit.length)
    else if c = '\n' then none else findFirstLit lit t

/-- `re.findall(w + '.*?(date)', text)`: starting positions are scanned left
to right (`skip` positions are still covered by the previous match and are
skipped); on a match the date group is collected and scanning resumes after
the match end. -/
def findAAux (w : List Char) : List Char → Nat → List (List Char)
  | [], _ => []
  | _ :: t, skip + 1 => findAAux w t skip
  | c :: t, 0 =>
    if w.isPrefixOf (c :: t) then
      match findFirstDate ((c :: t).drop w.length) with
      | some (d, r) => d :: findAAux w t ((c :: t).length - r.length - 1)
      | none => findAAux w t 0
    else findAAux w t 0

/-- `re.findall` for the four patterns `deadline/due/by/before` + lazy gap +
date group. -/
def findA (w cs : List Char) : List (List Char) := findAAux w cs 0

/-- `re.findall(r'(date).*?deadline', text)` (pattern 5). -/
def findBAux : List Char → Nat → List (List Char)
  | [], _ => []
  | _ :: t, skip + 1 => findBAux t skip
  | c :: t, 0 =>
    match matchDateLen (c :: t) with
    | some n =>
      match findFirstLit ("deadline".data) ((c :: t).drop n) with
      | some r => (c :: t).take n :: findBAux t ((c :: t).length - r.length - 1)
      | none => findBAux t 0
    | none => findBAux t 0

/-- Entry point for pattern 5. -/
def findB (cs : List Char) : List (List Char) := findBAux cs 0

/-- The `by` + lazy gap + date part of pattern 6: earliest `by` occurrence
from which a date is reachable (backtracking over successive `by`
occurrences, never across a newline). -/
def findByDate : List Char → Option (List Char × List Char)
  | [] => none
  | c :: t =>
    if ['b', 'y'].isPrefixOf (c :: t) then
      match findFirstDate ((c :: t).drop 2) with
      | some (d, r) => some (d, r)
      | none => if c = '\n' then none else findByDate t
    else if c = '\n' then none else findByDate t

/-- `re.findall(r'submit.*?by.*?(date)', text)` (pattern 6). -/
def findCAux : List Char → Nat → List (List Char)
  | [], _ => []
  | _ :: t, skip + 1 => findCAux t skip
  | c :: t, 0 =>
    if ("submit".data).isPrefixOf (c :: t) then
      match findByDate ((c :: t).drop 6) with
      | some (d, r) => d :: findCAux t ((c :: t).length - r.length - 1)
      | none => findCAux t 0
    else findCAux t 0

/-- Entry point for pattern 6. -/
def findC (cs : List Char) : List (List Char) := findCAux cs 0

/-- The `deadlines` accumulator of `_extract_deadlines_regex` before
deduplication: the six `re.findall` results extended in source order on the
lowered `subject + " " + content` text. -/
def rawDeadlineMatches (subject content : String) : List String :=
  let text := (textOf subject content).data
  ((findA ("deadline".data) text ++ findA ("due".data) text ++
    findA ("by".data) text ++ findA ("before".data) text ++
    findB text ++ findC text).map String.mk)

/-- `LLMService._extract_deadlines_regex` (lines 358-377):
`list(set(deadlines))`.  CPython's set iteration order is unspecified
(string hashing is randomized), so the set is modelled as first-occurrence
deduplication; theorems below use only order-independent facts (length,
membership, duplicate-freeness). -/
def extractDeadlinesRegex (subject content : String) : List String :=
  (rawDeadlineMatches subject content).dedup

/-! ## Per-message orchestration and the batch route (`app.py`) -/

/-- The fields of a fetched message that the orchestrator reads
(`gmail_client.get_message_content` also returns `snippet`, `date_header`,
`sender`, `received_time`, which `app.py` never uses). -/
structure EmailData where
  id : String
  subject : String
  content : String
deriving DecidableEq

/-- The per-message result record built by `app.py` (`process_email_with_llm`
returns all fields; `process_email_simple` omits `importance_level`, hence
the `Option`).  `processed_at` is the wall-clock string
`datetime.now().strftime(...)`, passed in as `now`. -/
structure ProcessedEmail where
  id : String
  subject : String
  importanceLevel : Option String
  categories : List String
  deadlines : List String
  summary : String
  isImportant : Bool
  hasDeadline : Bool
  processedAt : String
deriving DecidableEq

/-- `LLMService.categorize_email` (lines 277-285): comprehensive analysis if
it yields an `importance_level`, else the keyword fallback. -/
def categorizeEmail (jsonLoads : String → Option Analysis) (svc : LLMServiceM)
    (subject content : String) : List String :=
  match analyzeEmailComprehensive jsonLoads svc subject content with
  | some a =>
    match a.importanceLevel with
    | some imp => [imp]
    | none => simpleCategorizeFallback subject content
  | none => simpleCategorizeFallback subject content

/-- `LLMService.summarize_email` (lines 287-297): called with an empty
subject; falls back to the simple summarizer. -/
def summarizeEmail (jsonLoads : String → Option Analysis) (svc : LLMServiceM)
    (content : String) : String :=
  match analyzeEmailComprehensive jsonLoads svc "" content with
  | some a =>
    match a.summary with
    | some s => s
    | none => simpleSummarizeFallback content
  | none => simpleSummarizeFallback content

/-- `LLMService.extract_deadlines` (lines 299-309): the regex fallback runs
when the analysis is absent or its `deadlines` value is falsy (missing or
empty list, which the `Analysis` model conflates as `[]`). -/
def extractDeadlines (jsonLoads : String → Option Analysis) (svc : LLMServiceM)
    (subject content : String) : List String :=
  match analyzeEmailComprehensive jsonLoads svc subject content with
  | some a =>
    if a.deadlines ≠ [] then a.deadlines
    else extractDeadlinesRegex subject content
  | none => extractDeadlinesRegex subject content

/-- `app.process_email_with_llm` (`app.py` lines 74-119). -/
def processEmailWithLLM (jsonLoads : String → Option Analysis)
    (svc : LLMServiceM) (now : String) : Option EmailData → Option ProcessedEmail
  | none => none
  | some e =>
    match analyzeEmailComprehensive jsonLoads svc e.subject e.content with
    | some analysis =>
      let importance := analysis.importanceLevel.getD "UNIMPORTANT"
      let summary := analysis.summary.getD "No summary available"
      let deadlines := analysis.deadlines
      let hasDeadline := analysis.hasDeadline.getD false
      some
        { id := e.id
          subject := e.subject
          importanceLevel := some importance
          categories := [importance]
          deadlines := deadlines
          summary := summary
          isImportant := ["VERY_IMPORTANT", "IMPORTANT"].contains importance
          hasDeadline := hasDeadline || decide (0 < deadlines.length)
          processedAt := now }
    | none =>
      let categories := categorizeEmail jsonLoads svc e.subject e.content
      let importance := categories.headD "UNIMPORTANT"
      let summary := summarizeEmail jsonLoads svc e.content
      let deadlines := extractDeadlines jsonLoads svc e.subject e.content
      some
        { id := e.id
          subject := e.subject
          importanceLevel := some importance
          categories := [importance]
          deadlines := deadlines
          summary := summary
          isImportant := ["VERY_IMPORTANT", "IMPORTANT"].contains importance
          hasDeadline := decide (0 < deadlines.length) || decide (0 < deadlines.length)
          processedAt := now }

/-- `app.simple_categorize_email` (`app.py` lines 35-52): the `CATEGORIES`
dict in insertion order. -/
def appSimpleCategorize (subject content : String) : List String :=
  let text := textOf subject content
  (if anyKw ["urgent", "important", "critical", "asap"] text then ["IMPORTANT"] else []) ++
  (if anyKw ["deadline", "due", "by", "before"] text then ["DEADLINE"] else []) ++
  (if anyKw ["action required", "please respond", "needs your attention"] text
   then ["ACTION_REQUIRED"] else []) ++
  (if anyKw ["meeting", "schedule", "appointment", "call"] text then ["MEETING"] else [])

/-- `app.simple_summarize_email` (`app.py` lines 55-71). -/
def appSimpleSummarize (content : String) : String :=
  let sentences := ((pySplit '.' content.data).map pyStrip).filter (fun s => s ≠ [])
  let summary :=
    match sentences with
    | [] => "No content to summarize".data
    | [s] => s
    | s1 :: s2 :: rest => s1 ++ "... ".data ++ (s2 :: rest).getLastD []
  String.mk (if summary.length > 200 then summary.take 200 ++ "...".data else summary)

/-- `app.process_email_simple` (`app.py` lines 122-145); its record has no
`importance_level` key. -/
def processEmailSimple (now : String) : Option EmailData → Option ProcessedEmail
  | none => none
  | some e =>
    let categories := appSimpleCategorize e.subject e.content
    some
      { id := e.id
        subject := e.subject
        importanceLevel := none
        categories := categories
        deadlines := []
        summary := appSimpleSummarize e.content
        isImportant := categories.contains "IMPORTANT"
        hasDeadline := categories.contains "DEADLINE"
        processedAt := now }

/-- Result of a Python attribute lookup: the attribute may be missing
entirely (lookup raises `AttributeError`) or present with a value. -/
inductive AttrLookup
  | missing
  | found (v : Option String)

/-- The lookup `llm_service.api_key` performed at `app.py` line 168.
`LLMService.__init__` assigns only `client`, `model_name` and
`is_available`, and no `api_key` attribute is assigned anywhere in the
class, so the lookup always raises `AttributeError`. -/
def llmServiceApiKeyAttr (_svc : LLMServiceM) : AttrLookup := .missing

/-- The JSON payload of the `/api/process-emails` route.  The real error
payload has no `emails` key at all; it is modelled as the empty list (zero
records delivered either way).  The Python error message contains quoted
attribute names; the quotes are dropped here. -/
structure ApiResponse where
  success : Bool
  message : String
  emails : List ProcessedEmail
deriving DecidableEq

/-- `app.process_emails` (`app.py` lines 154-221), given the already-fetched
messages (`None` entries model per-message fetch failures that `continue`).
The body reads `llm_service.api_key` before processing anything; on
`AttributeError` the route's `except` handler returns the error payload.
The `found` branch models what the loop would do if the attribute existed
(`use_llm` iff the value is not `None`). -/
def processEmails (jsonLoads : String → Option Analysis) (svc : LLMServiceM)
    (fetched : List (Option EmailData)) (now : String) : ApiResponse :=
  match llmServiceApiKeyAttr svc with
  | .missing =>
    { success := false
      message := "Error processing emails: LLMService object has no attribute api_key"
      emails := [] }
  | .found k =>
    let processed := fetched.filterMap (fun e? =>
      if k.isSome then processEmailWithLLM jsonLoads svc now e?
      else processEmailSimple now e?)
    { success := true
      message := "Processed emails"
      emails := processed }

/-! ## Helper lemmas -/

theorem dropWhile_append_all {pw : Char → Bool} {x y : List Char}
    (hx : ∀ c ∈ x, pw c = true) :
    List.dropWhile pw (x ++ y) = List.dropWhile pw y := by
  induction x with
  | nil => rfl
  | cons a t ih =>
    have ha : pw a = true := hx a (by simp)
    simpa [List.dropWhile_cons, ha] using ih (fun c hc => hx c (by simp [hc]))

theorem dropWhile_head_false {pw : Char → Bool} {y : List Char} {c : Char}
    (hy : y.head? = some c) (hc : pw c = false) :
    List.dropWhile pw y = y := by
  cases y with
  | nil => simp at hy
  | cons a t =>
    simp only [List.head?_cons, Option.some.injEq] at hy
    subst hy
    simp [List.dropWhile_cons, hc]

theorem replaceEscape_eq_self (e r : Char) (cs : List Char)
    (h : ∀ c ∈ cs, c ≠ '\\') : replaceEscape e r cs = cs := by
  induction cs with
  | nil => rfl
  | cons c t ih =>
    cases t with
    | nil => rfl
    | cons d t2 =>
      have hc : ¬c = '\\' := h c (by simp)
      have ht : replaceEscape e r (d :: t2) = d :: t2 :=
        ih (fun x hx => h x (by simp [hx]))
      simp [replaceEscape, hc, ht]

theorem dropWhile_append_head {pw : Char → Bool} {x y : List Char} {c : Char}
    (hy : y.head? = some c) (hc : pw c = false) :
    List.dropWhile pw (x ++ y) = x.dropWhile pw ++ y := by
  induction x with
  | nil => simpa using dropWhile_head_false hy hc
  | cons a t ih => cases hpa : pw a <;> simp [List.dropWhile_cons, hpa, ih]

theorem mem_trimFront {c : Char} {x : List Char} (h : c ∈ trimFront x) : c ∈ x :=
  (List.dropWhile_sublist pyWs).subset h

theorem mem_trimBack {c : Char} {x : List Char} (h : c ∈ trimBack x) : c ∈ x := by
  unfold trimBack at h
  rw [List.mem_reverse] at h
  exact List.mem_reverse.mp ((List.dropWhile_sublist pyWs).subset h)

theorem pyStrip_prose {P J Q : List Char}
    (hJh : J.head? = some lbrace) (hJl : J.getLast? = some rbrace) :
    pyStrip (P ++ (J ++ Q)) = trimFront P ++ (J ++ trimBack Q) := by
  have hJne : J ≠ [] := by
    cases J
    · simp at hJh
    · simp
  have h1 : trimFront (P ++ (J ++ Q)) = trimFront P ++ (J ++ Q) := by
    have hy : (J ++ Q).head? = some lbrace := by
      cases J
      · simp at hJh
      · simpa using hJh
    exact dropWhile_append_head hy (by decide)
  have hrev : J.reverse.head? = some rbrace := by
    rw [List.head?_reverse]; exact hJl
  have h2 : trimBack (trimFront P ++ (J ++ Q)) = trimFront P ++ (J ++ trimBack Q) := by
    unfold trimBack
    have hy : (J.reverse ++ (trimFront P).reverse).head? = some rbrace := by
      obtain ⟨b, R, hR⟩ := List.exists_cons_of_ne_nil
        (fun h => hJne (by simpa using congrArg List.reverse h))
      rw [hR]
      rw [hR] at hrev
      simpa using hrev
    calc ((trimFront P ++ (J ++ Q)).reverse.dropWhile pyWs).reverse
        = ((Q.reverse ++ (J.reverse ++ (trimFront P).reverse)).dropWhile pyWs).reverse := by
          simp [List.reverse_append, List.append_assoc]
      _ = (Q.reverse.dropWhile pyWs ++ (J.reverse ++ (trimFront P).reverse)).reverse := by
          rw [dropWhile_append_head hy (by decide)]
      _ = trimFront P ++ (J ++ (Q.reverse.dropWhile pyWs).reverse) := by
          simp [List.reverse_append, List.append_assoc]
  unfold pyStrip
  rw [h1, h2]

theorem sliceBraces_prose {A J B : List Char}
    (hA : ∀ c ∈ A, c ≠ lbrace) (hB : ∀ c ∈ B, c ≠ rbrace)
    (hJh : J.head? = some lbrace) (hJl : J.getLast? = some rbrace) :
    sliceBraces (A ++ (J ++ B)) = J := by
  have hJne : J ≠ [] := by
    cases J
    · simp at hJh
    · simp
  have hy : (J ++ B).head? = some lbrace := by
    cases J
    · simp at hJh
    · simpa using hJh
  have h1 : (A ++ (J ++ B)).dropWhile (fun c => c != lbrace) = J ++ B := by
    rw [dropWhile_append_all (fun c hc => by simpa using hA c hc)]
    exact dropWhile_head_false hy (by simp)
  have hrev : J.reverse.head? = some rbrace := by
    rw [List.head?_reverse]; exact hJl
  unfold sliceBraces
  rw [h1]
  rw [List.reverse_append]
  have hBrev : ∀ c ∈ B.reverse, (fun x => x != rbrace) c = true :=
    fun c hc => by simpa using hB c (List.mem_reverse.mp hc)
  rw [dropWhile_append_all hBrev]
  rw [dropWhile_head_false hrev (by simp)]
  exact List.reverse_reverse J

theorem cleanedChars_self {j : String} (hj0 : ∀ c ∈ j.data, c ≠ '\\')
    (hjh : j.data.head? = some lbrace) (hjl : j.data.getLast? = some rbrace) :
    cleanedChars j = j.data := by
  unfold cleanedChars
  have hs : pyStrip j.data = j.data := by
    simpa [trimFront, trimBack] using pyStrip_prose (P := []) (Q := []) hjh hjl
  rw [hs, replaceEscape_eq_self _ _ _ hj0, replaceEscape_eq_self _ _ _ hj0]

theorem cleanedChars_concat {p₁ j p₂ : String}
    (hp₁ : ∀ c ∈ p₁.data, c ≠ '\\') (hp₂ : ∀ c ∈ p₂.data, c ≠ '\\')
    (hj0 : ∀ c ∈ j.data, c ≠ '\\')
    (hjh : j.data.head? = some lbrace) (hjl : j.data.getLast? = some rbrace) :
    cleanedChars (p₁ ++ j ++ p₂) =
      trimFront p₁.data ++ (j.data ++ trimBack p₂.data) := by
  unfold cleanedChars
  have hdata : (p₁ ++ j ++ p₂).data = p₁.data ++ (j.data ++ p₂.data) := by
    show (p₁.data ++ j.data) ++ p₂.data = _
    rw [List.append_assoc]
  rw [hdata, pyStrip_prose hjh hjl]
  have hall : ∀ c ∈ trimFront p₁.data ++ (j.data ++ trimBack p₂.data), c ≠ '\\' := by
    intro c hc
    rcases List.mem_append.mp hc with h | h
    · exact hp₁ c (mem_trimFront h)
    rcases List.mem_append.mp h with h | h
    · exact hj0 c h
    · exact hp₂ c (mem_trimBack h)
  rw [replaceEscape_eq_self _ _ _ hall, replaceEscape_eq_self _ _ _ hall]

theorem jsonCandidate_concat {p₁ j p₂ : String}
    (hp₁ : ∀ c ∈ p₁.data, c ≠ lbrace ∧ c ≠ rbrace ∧ c ≠ '\\')
    (hp₂ : ∀ c ∈ p₂.data, c ≠ lbrace ∧ c ≠ rbrace ∧ c ≠ '\\')
    (hj0 : ∀ c ∈ j.data, c ≠ '\\')
    (hjh : j.data.head? = some lbrace) (hjl : j.data.getLast? = some rbrace) :
    jsonCandidate (p₁ ++ j ++ p₂) = jsonCandidate j := by
  unfold jsonCandidate
  rw [cleanedChars_concat (fun c hc => (hp₁ c hc).2.2) (fun c hc => (hp₂ c hc).2.2)
        hj0 hjh hjl,
      cleanedChars_self hj0 hjh hjl]
  rw [sliceBraces_prose (fun c hc => (hp₁ c (mem_trimFront hc)).1)
        (fun c hc => (hp₂ c (mem_trimBack hc)).2.1) hjh hjl]
  have : sliceBraces j.data = j.data := by
    simpa using sliceBraces_prose (A := []) (B := [])
      (by simp) (by simp) hjh hjl
  rw [this]

/-! ## Concrete instances used by witnesses and counterexamples -/

/-- Leading prose for the parser-idempotence witness. -/
def proseBefore : String := "Sure! Here is the JSON:\n"

/-- Trailing prose for the parser-idempotence witness. -/
def proseAfter : String := "\nDone."

/-- An already-clean JSON object response. -/
def cleanObj : String := "\x7b\"importance_level\": \"SPAM\", \"summary\": \"x\"\x7d"

/-- The object `cleanObj` denotes. -/
def cleanObjAnalysis : Analysis :=
  { importanceLevel := some "SPAM"
    summary := some "x"
    deadlines := []
    hasDeadline := some false
    reasoning := none
    importantLinks := []
    attachmentsMentioned := [] }

/-- A decode oracle agreeing with `json.loads` on `cleanObj`. -/
def cleanObjLoads : String → Option Analysis :=
  fun s => if s = cleanObj then some cleanObjAnalysis else none

/-! ## Claim theorems -/

/-- C9: parser repair idempotence.  For any decode oracle, a response that is
an already-clean JSON object (head `{`, last `}`, no backslash escapes, and
successfully decoded) parses to the same `AnalysisResult` as the same object
wrapped in leading/trailing prose with embedded newlines, provided the prose
contains no braces or backslashes. -/
theorem claim9_parser_repair_idempotence
    (jsonLoads : String → Option Analysis) (p₁ p₂ j : String) (a : Analysis)
    (hp₁ : ∀ c ∈ p₁.data, c ≠ lbrace ∧ c ≠ rbrace ∧ c ≠ '\\')
    (hp₂ : ∀ c ∈ p₂.data, c ≠ lbrace ∧ c ≠ rbrace ∧ c ≠ '\\')
    (hj0 : ∀ c ∈ j.data, c ≠ '\\')
    (hjh : j.data.head? = some lbrace)
    (hjl : j.data.getLast? = some rbrace)
    (hd : jsonLoads (jsonCandidate j) = some a) :
    parseResponse jsonLoads (p₁ ++ j ++ p₂) = parseResponse jsonLoads j := by
  have hcc := cleanedChars_concat (fun c hc => (hp₁ c hc).2.2)
    (fun c hc => (hp₂ c hc).2.2) hj0 hjh hjl
  have hcs := cleanedChars_self hj0 hjh hjl
  have hjc := jsonCandidate_concat hp₁ hp₂ hj0 hjh hjl
  have hmemL : lbrace ∈ j.data := by
    cases hJ : j.data with
    | nil => rw [hJ] at hjh; simp at hjh
    | cons b t =>
      rw [hJ] at hjh
      simp only [List.head?_cons, Option.some.injEq] at hjh
      simp [hjh]
  have hmemR : rbrace ∈ j.data := List.mem_of_mem_getLast? hjl
  have h1 : (cleanedChars (p₁ ++ j ++ p₂)).contains lbrace = true := by
    rw [hcc]; exact List.elem_iff.mpr (by simp [hmemL])
  have h2 : (cleanedChars (p₁ ++ j ++ p₂)).contains rbrace = true := by
    rw [hcc]; exact List.elem_iff.mpr (by simp [hmemR])
  have h3 : (cleanedChars j).contains lbrace = true := by
    rw [hcs]; exact List.elem_iff.mpr hmemL
  have h4 : (cleanedChars j).contains rbrace = true := by
    rw [hcs]; exact List.elem_iff.mpr hmemR
  unfold parseResponse
  simp only [h1, h2, h3, h4, hjc, hd, Bool.and_self, if_true]

/-- Witness for C9 at a concrete clean object, prose wrapping and decoder. -/
theorem claim9_witness :
    parseResponse cleanObjLoads (proseBefore ++ cleanObj ++ proseAfter) =
      parseResponse cleanObjLoads cleanObj :=
  claim9_parser_repair_idempotence cleanObjLoads proseBefore proseAfter cleanObj
    cleanObjAnalysis (by decide) (by decide) (by decide) (by decide) (by decide)
    (by decide)

theorem sevRank_le_three (l : String) : sevRank l ≤ 3 := by
  unfold sevRank
  split_ifs <;> omega

theorem fixImportance_eq (imp : String) (h1 : imp.data.contains '|' = true) :
    fixImportance imp =
      (if (pipeLevels imp).contains "VERY_IMPORTANT" then "VERY_IMPORTANT"
       else if (pipeLevels imp).contains "IMPORTANT" then "IMPORTANT"
       else if (pipeLevels imp).contains "UNIMPORTANT" then "UNIMPORTANT"
       else "SPAM") := by
  unfold fixImportance
  rw [if_pos h1]

/-- C5: compound-level collapse.  Whenever the decoded `importance_level`
contains `|` and at least one of its `|`-separated components is a valid
level, `fixImportance` returns one of those components, it is a valid level,
and it has maximal severity among the valid components — the compound value
is collapsed, not rejected. -/
theorem claim5_compound_level_collapse (imp : String)
    (h1 : imp.data.contains '|' = true)
    (h2 : ∃ l ∈ pipeLevels imp, l ∈ importanceLevels) :
    fixImportance imp ∈ pipeLevels imp ∧
    fixImportance imp ∈ importanceLevels ∧
    ∀ l ∈ pipeLevels imp, l ∈ importanceLevels →
      sevRank l ≤ sevRank (fixImportance imp) := by
  rw [fixImportance_eq imp h1]
  by_cases hV : "VERY_IMPORTANT" ∈ pipeLevels imp
  · rw [if_pos (List.elem_iff.mpr hV)]
    refine ⟨hV, by decide, fun l _ _ => ?_⟩
    calc sevRank l ≤ 3 := sevRank_le_three l
      _ = sevRank "VERY_IMPORTANT" := by decide
  · rw [if_neg (fun h => hV (List.elem_iff.mp h))]
    by_cases hI : "IMPORTANT" ∈ pipeLevels imp
    · rw [if_pos (List.elem_iff.mpr hI)]
      refine ⟨hI, by decide, fun l hl hval => ?_⟩
      have : l = "VERY_IMPORTANT" ∨ l = "IMPORTANT" ∨ l = "UNIMPORTANT" ∨
          l = "SPAM" := by simpa [importanceLevels] using hval
      rcases this with h | h | h | h
      · exact absurd (h ▸ hl) hV
      all_goals subst h; decide
    · rw [if_neg (fun h => hI (List.elem_iff.mp h))]
      by_cases hU : "UNIMPORTANT" ∈ pipeLevels imp
      · rw [if_pos (List.elem_iff.mpr hU)]
        refine ⟨hU, by decide, fun l hl hval => ?_⟩
        have : l = "VERY_IMPORTANT" ∨ l = "IMPORTANT" ∨ l = "UNIMPORTANT" ∨
            l = "SPAM" := by simpa [importanceLevels] using hval
        rcases this with h | h | h | h
        · exact absurd (h ▸ hl) hV
        · exact absurd (h ▸ hl) hI
        all_goals subst h; decide
      · rw [if_neg (fun h => hU (List.elem_iff.mp h))]
        obtain ⟨l0, hl0, hval0⟩ := h2
        have : l0 = "VERY_IMPORTANT" ∨ l0 = "IMPORTANT" ∨ l0 = "UNIMPORTANT" ∨
            l0 = "SPAM" := by simpa [importanceLevels] using hval0
        rcases this with h | h | h | h
        · exact absurd (h ▸ hl0) hV
        · exact absurd (h ▸ hl0) hI
        · exact absurd (h ▸ hl0) hU
        · subst h
          refine ⟨hl0, by decide, fun l hl hval => ?_⟩
          have : l = "VERY_IMPORTANT" ∨ l = "IMPORTANT" ∨ l = "UNIMPORTANT" ∨
              l = "SPAM" := by simpa [importanceLevels] using hval
          rcases this with h | h | h | h
          · exact absurd (h ▸ hl) hV
          · exact absurd (h ▸ hl) hI
          · exact absurd (h ▸ hl) hU
          · subst h; decide

/-- Witness for C5: the spec's concrete example
`"VERY_IMPORTANT|IMPORTANT"` collapses to `VERY_IMPORTANT`. -/
theorem claim5_witness :
    fixImportance "VERY_IMPORTANT|IMPORTANT" = "VERY_IMPORTANT" ∧
    (fixImportance "VERY_IMPORTANT|IMPORTANT" ∈ pipeLevels "VERY_IMPORTANT|IMPORTANT" ∧
     fixImportance "VERY_IMPORTANT|IMPORTANT" ∈ importanceLevels ∧
     ∀ l ∈ pipeLevels "VERY_IMPORTANT|IMPORTANT", l ∈ importanceLevels →
       sevRank l ≤ sevRank (fixImportance "VERY_IMPORTANT|IMPORTANT")) :=
  ⟨by decide, claim5_compound_level_collapse "VERY_IMPORTANT|IMPORTANT" (by decide)
    ⟨"VERY_IMPORTANT", by decide, by decide⟩⟩

/-- C4: heuristic classification priority order.  The source classifier
agrees, for every `(subject, content)` pair, with the spec-side first-match
cascade over the keyword sets in the fixed order business/booking →
urgency → promotional/marketing (including marketing-sender words) →
informational, with default `UNIMPORTANT`. -/
theorem claim4_priority_order (subject content : String) :
    simpleCategorizeFallback subject content = [priorityClassifySpec subject content] := by
  unfold simpleCategorizeFallback priorityClassifySpec
  cases h1 : anyKw importantKeywords (textOf subject content) <;>
  cases h2 : anyKw veryUrgentKeywords (textOf subject content) <;>
  cases h3 : anyKw spamKeywords (textOf subject content) <;>
  cases h4 : anyKw senderSpamWords (textOf subject content) <;>
  cases h5 : anyKw unimportantKeywords (textOf subject content) <;>
  simp [h1, h2, h3, h4, h5, List.find?]

/-- C10: the heuristic classifier always returns a one-element list whose
element is one of the four taxonomy levels, and the importance fallback
always returns one of the four levels. -/
theorem claim10_classifier_invariant (subject content : String) :
    (∃ l, simpleCategorizeFallback subject content = [l] ∧ l ∈ importanceLevels) ∧
    simpleImportanceFallback subject content ∈ importanceLevels := by
  have h : ∃ l, simpleCategorizeFallback subject content = [l] ∧ l ∈ importanceLevels := by
    simp only [simpleCategorizeFallback]
    split_ifs <;> exact ⟨_, rfl, by decide⟩
  obtain ⟨l, hl, hv⟩ := h
  refine ⟨⟨l, hl, hv⟩, ?_⟩
  unfold simpleImportanceFallback
  rw [hl]
  simpa using hv

/-- C2 counterexample: the spec's own example — a message containing both the
promotional phrase `50% off sale` and the urgency phrase `respond today` —
classifies as `VERY_IMPORTANT`, not `SPAM`: the urgency keyword set is
checked before the promotional one. -/
theorem claim2_counterexample :
    simpleCategorizeFallback "" "50% off sale respond today" = ["VERY_IMPORTANT"] ∧
    simpleCategorizeFallback "" "50% off sale respond today" ≠ ["SPAM"] := by decide

/-- C2 amended: urgency dominates promotional intent.  A message matching an
urgency keyword and no business keyword classifies `VERY_IMPORTANT` whatever
promotional phrases it also contains; `SPAM` results only when a promotional
keyword matches and neither business nor urgency keywords do. -/
theorem claim2_amended (s c s2 c2 : String)
    (h1 : anyKw importantKeywords (textOf s c) = false)
    (h2 : anyKw veryUrgentKeywords (textOf s c) = true)
    (h3 : anyKw importantKeywords (textOf s2 c2) = false)
    (h4 : anyKw veryUrgentKeywords (textOf s2 c2) = false)
    (h5 : anyKw spamKeywords (textOf s2 c2) = true) :
    simpleCategorizeFallback s c = ["VERY_IMPORTANT"] ∧
    simpleCategorizeFallback s2 c2 = ["SPAM"] := by
  unfold simpleCategorizeFallback
  simp [h1, h2, h3, h4, h5]

/-- Witness for C2 amended at the spec's phrases. -/
theorem claim2_witness :
    simpleCategorizeFallback "" "50% off sale respond today" = ["VERY_IMPORTANT"] ∧
    simpleCategorizeFallback "" "50% off sale" = ["SPAM"] :=
  claim2_amended "" "50% off sale respond today" "" "50% off sale"
    (by decide) (by decide) (by decide) (by decide) (by decide)

/-- C3 counterexample: the spec's own example — `please respond immediately`
with no date — classifies `VERY_IMPORTANT` (the urgency keyword `immediate`
matches), strictly above the `IMPORTANT` bound the claim asserts. -/
theorem claim3_counterexample :
    simpleCategorizeFallback "" "please respond immediately" = ["VERY_IMPORTANT"] ∧
    sevRank "VERY_IMPORTANT" > sevRank "IMPORTANT" := by decide

/-- C3 amended: the heuristic has no concrete-deadline requirement — an
urgency/action phrase alone (with no business keyword) already yields
`VERY_IMPORTANT`; a concrete date with no matching keyword at all yields
`UNIMPORTANT`, which is at most `IMPORTANT`. -/
theorem claim3_amended (s c : String)
    (h1 : anyKw importantKeywords (textOf s c) = false)
    (h2 : anyKw veryUrgentKeywords (textOf s c) = true) :
    simpleCategorizeFallback s c = ["VERY_IMPORTANT"] ∧
    simpleCategorizeFallback "" "June 18, 2025" = ["UNIMPORTANT"] := by
  constructor
  · unfold simpleCategorizeFallback
    simp [h1, h2]
  · decide

/-- Witness for C3 amended at the spec's phrases. -/
theorem claim3_witness :
    simpleCategorizeFallback "" "please respond immediately" = ["VERY_IMPORTANT"] ∧
    simpleCategorizeFallback "" "June 18, 2025" = ["UNIMPORTANT"] :=
  claim3_amended "" "please respond immediately" (by decide) (by decide)

/-- A raw response with no braces whose text nevertheless matches the
manual-extraction regex. -/
def noBraceResponse : String := "\"importance_level\": \"SPAM\""

/-- A raw response with braces whose slice fails to decode but matches the
manual-extraction regex. -/
def brokenObj : String :=
  "\x7b broken json \"importance_level\": \"IMPORTANT\" oops \x7d"

/-- C6 counterexample: on a response containing no `{`, structured parsing
totally fails and the manual-extraction regex would match, yet the parser
returns failure without attempting the manual extraction (the regex fallback
lives only in the JSON-decode-error branch). -/
theorem claim6_counterexample :
    parseResponse (fun _ => none) noBraceResponse = none ∧
    searchImportance noBraceResponse.data = some ("SPAM".data) := by decide

/-- C6 amended: the manual-extraction fallback runs exactly when a JSON
candidate span was found (both braces present) but decoding it fails; a
response missing `{` or `}` reports failure immediately, with no manual
extraction. -/
theorem claim6_amended (jsonLoads : String → Option Analysis) (raw raw2 : String)
    (hb : ((cleanedChars raw).contains lbrace && (cleanedChars raw).contains rbrace) = true)
    (hd : jsonLoads (jsonCandidate raw) = none)
    (hb2 : ((cleanedChars raw2).contains lbrace && (cleanedChars raw2).contains rbrace) = false) :
    parseResponse jsonLoads raw =
      (searchImportance raw.data).map (fun cap => mkMinimalAnalysis (String.mk cap)) ∧
    parseResponse jsonLoads raw2 = none := by
  constructor
  · unfold parseResponse
    simp only [hb, if_true, hd]
    cases hS : searchImportance raw.data <;> simp [hS]
  · unfold parseResponse
    have hneg : ¬(((cleanedChars raw2).contains lbrace &&
        (cleanedChars raw2).contains rbrace) = true) := by
      rw [hb2]; exact Bool.false_ne_true
    rw [if_neg hneg]

/-- Witness for C6 amended: a decode failure inside braces synthesizes the
minimal record; a brace-free response fails outright. -/
theorem claim6_witness :
    parseResponse (fun _ => none) brokenObj =
      (searchImportance brokenObj.data).map (fun cap => mkMinimalAnalysis (String.mk cap)) ∧
    parseResponse (fun _ => none) "no json here" = none :=
  claim6_amended (fun _ => none) brokenObj "no json here" (by decide) rfl (by decide)

/-- A gateway whose first chat response is structurally malformed and whose
later responses would succeed. -/
def svcMalformedFirst : LLMServiceM :=
  ⟨true, fun n => if n = 0 then .malformed else .ok "RECOVERED"⟩

/-- C7 counterexample: a malformed-empty first response is NOT retried — the
gateway returns `None` after a single attempt even though the two remaining
attempts would have succeeded. -/
theorem claim7_counterexample :
    (callOllama svcMalformedFirst "prompt" 3).result = none ∧
    (callOllama svcMalformedFirst "prompt" 3).attempts = 1 := by decide

/-- C7 amended: only thrown errors (timeouts/connection failures) are
retried, up to 3 attempts with a 2s sleep between them; a malformed or empty
response aborts on the spot with a non-result; exhausted retries also yield
a non-result; an unavailable service never attempts a call.  In every case
the function returns `none` rather than raising. -/
theorem claim7_amended (f : Nat → CallOutcome) (c p : String) :
    callOllama ⟨true, fun n => if n < 2 then .exn else .ok c⟩ p 3 =
      ⟨some (pyStripStr c), 3, 2⟩ ∧
    callOllama ⟨true, fun _ => .exn⟩ p 3 = ⟨none, 3, 2⟩ ∧
    callOllama ⟨true, fun n => if n = 0 then .malformed else f n⟩ p 3 = ⟨none, 1, 0⟩ ∧
    callOllama ⟨false, f⟩ p 3 = ⟨none, 0, 0⟩ := by
  refine ⟨?_, ?_, ?_, ?_⟩ <;> simp [callOllama, callAttempts]

/-- Text containing six distinct numeric dates, each in deadline context. -/
def manyDueText : String :=
  "due 1-1-20 z due 2-2-20 z due 3-3-20 z due 4-4-20 z due 5-5-20 z due 6-6-20"

/-- C8 counterexample: the extractor returns six deadlines here — the claimed
cap of 5 does not exist; and a month-name date in deadline context extracts
nothing — the claimed month-name/ordinal/relative coverage does not exist. -/
theorem claim8_counterexample :
    (extractDeadlinesRegex "" manyDueText).length = 6 ∧
    extractDeadlinesRegex "" "deadline June 18, 2025" = [] ∧
    extractDeadlinesRegex "" "deadline tomorrow" = [] := by decide

/-- C8 amended: the extractor applies six ordered regexes covering only
numeric dates (one-or-two-digit fields separated by slash or dash) adjacent
to the context words deadline/due/by/before/submit-by; the result is
deduplicated by exact string — membership is exactly membership in the raw
match list, and no element repeats — and its count is not capped. -/
theorem claim8_amended (subject content : String) :
    (extractDeadlinesRegex subject content).Nodup ∧
    ∀ d, d ∈ extractDeadlinesRegex subject content ↔
      d ∈ rawDeadlineMatches subject content := by
  unfold extractDeadlinesRegex
  exact ⟨List.nodup_dedup _, fun d => List.mem_dedup⟩

/-- A concrete fetched message. -/
def sampleEmail : EmailData := ⟨"m1", "Hello", "Just checking in."⟩

/-- The gateway with `is_available = False` (every call returns `None`). -/
def unavailableService : LLMServiceM := ⟨false, fun _ => .exn⟩

/-- A decode oracle that is never consulted on the unavailable path. -/
def neverLoads : String → Option Analysis := fun _ => none

/-- C1 (code bug): the batch route always fails before processing any
message — `process_emails` reads `llm_service.api_key`, an attribute
`LLMService` never defines, so the route's handler catches `AttributeError`
and returns zero records instead of N.  The per-message pipeline itself
(conjunct three) does satisfy the claim: with the gateway unavailable it
produces a record with a non-empty summary and a valid importance level
purely heuristically. -/
theorem claim1_api_key_attribute_bug :
    (processEmails neverLoads unavailableService [some sampleEmail]
      "2025-06-18 10:00:00").success = false ∧
    (processEmails neverLoads unavailableService [some sampleEmail]
      "2025-06-18 10:00:00").emails = [] ∧
    ((processEmailWithLLM neverLoads unavailableService "2025-06-18 10:00:00"
        (some sampleEmail)).map
      (fun r => decide (r.summary ≠ "") &&
        importanceLevels.contains (r.importanceLevel.getD ""))) = some true := by
  exact ⟨rfl, rfl, by decide⟩

end GmailSummarizer
